import Mathlib

/-!
Shallow embedding of `src/src/components/common/ArtItem.js` (the
`forwardRef` component, internal name `ArtItemWithRef`).

The component renders a fixed-shape tree:

  StyledContainer (react-router `Link` when `gemId` is truthy, else a `div`)
    div.image-container
      img  (src = dataUrl || placeholderDataUrl, onLoad = copyImageOnCanvas)
      canvas (ref = canvasRef)
    {buttonText && <Button isDisabled={isButtonDisabled} onClick={onButtonClick}>}

Props are `gemId?`, `dataUrl?`, `buttonText?` (string or number),
`isButtonDisabled?`, `onButtonClick?` (defaults to a no-op).  JS optional
props are `Option`s; JS truthiness of each prop type is made explicit.
Pixels are `Nat` values in row-major lists; value 0 stands for the fully
transparent pixel a freshly (re)sized canvas holds.
-/

namespace ArtItem

/-- A JS value that may appear in `buttonText`: `PropTypes.oneOfType([string, number])`. -/
inductive ButtonText where
  | str (s : String)
  | num (n : Int)
deriving DecidableEq, Repr

/-- JS truthiness of a `buttonText` value: a string is truthy iff non-empty,
a number is truthy iff nonzero. -/
def ButtonText.truthy : ButtonText → Bool
  | .str s => s ≠ ""
  | .num n => n ≠ 0

/-- JS truthiness of an optional string prop (`!!gemId`): `undefined` and `""` are falsy. -/
def jsTruthyStr : Option String → Bool
  | none => false
  | some s => s ≠ ""

/-- JS truthiness of an optional boolean prop: `undefined` is falsy. -/
def jsTruthyBool : Option Bool → Bool
  | none => false
  | some b => b

/-- JS `v || fallback` on an optional string: the fallback is chosen whenever
`v` is falsy (`undefined` or `""`), not merely when it is absent. -/
def jsOrStr (v : Option String) (fallback : String) : String :=
  match v with
  | none => fallback
  | some s => if s = "" then fallback else s

/-- The bundled placeholder asset (`import placeholderDataUrl from '.../assets/art.png'`),
modelled as a distinguished URL string. -/
def placeholderDataUrl : String := "bundled:assets/art.png"

/-- The props of the component.  `onButtonClick` is a caller-supplied function
and is modelled at the click-dispatch site (see `actionClickChain`), not here. -/
structure Props where
  gemId : Option String
  dataUrl : Option String
  buttonText : Option ButtonText
  isButtonDisabled : Option Bool
deriving DecidableEq, Repr

/-- The `to` object handed to the react-router `Link`:
`{ pathname: `/gem/${gemId}`, prevPathname: location.pathname }`. -/
structure LinkTarget where
  pathname : String
  prevPathname : String
deriving DecidableEq, Repr

/-- The rendered `img` element: its `src` and which load-lifecycle handlers
the component binds to it. -/
structure ImgElem where
  src : String
  hasOnLoad : Bool
  hasOnError : Bool
deriving DecidableEq, Repr

/-- What the JSX expression `{buttonText && <Button …>}` renders:
nothing (for `undefined` or `""`, which React renders as no node),
the action control (for a truthy value), or a stray text node (React
renders a falsy *number* — `0` — as the text "0", not as the control). -/
inductive ActionArea where
  | nothing
  | control (label : ButtonText) (disabled : Bool)
  | strayText (v : ButtonText)
deriving DecidableEq, Repr

/-- The rendered tree of one `ArtItem` card.  The JSX shape is fixed, so the
tree is a record rather than a recursive node type. -/
structure Rendered where
  asLink : Bool
  target : Option LinkTarget
  img : ImgElem
  hasCanvas : Bool
  action : ActionArea
deriving DecidableEq, Repr

/-- The render function of `ArtItemWithRef`, translated clause by clause:
`isLink = !!gemId`; `to` carries `/gem/${gemId}` and the current
`location.pathname` when a link, `undefined` otherwise; the `img` gets
`src={dataUrl || placeholderDataUrl}` and only an `onLoad` handler; the
button is rendered by `{buttonText && <Button …>}`. -/
def render (p : Props) (locationPathname : String) : Rendered :=
  let isLink := jsTruthyStr p.gemId
  let target : Option LinkTarget :=
    if isLink then
      some ⟨"/gem/" ++ p.gemId.getD "", locationPathname⟩
    else none
  let imgSrc := jsOrStr p.dataUrl placeholderDataUrl
  let action : ActionArea :=
    match p.buttonText with
    | none => .nothing
    | some v =>
      if v.truthy then
        .control v (jsTruthyBool p.isButtonDisabled)
      else
        match v with
        | .str _ => .nothing
        | .num _ => .strayText v
  { asLink := isLink
    target := target
    img := ⟨imgSrc, true, false⟩
    hasCanvas := true
    action := action }

/-- Number of action controls in a rendered tree. -/
def countActionControls (r : Rendered) : Nat :=
  match r.action with
  | .control _ _ => 1
  | _ => 0

/-- The labels of the rendered action controls, in order. -/
def actionLabels (r : Rendered) : List ButtonText :=
  match r.action with
  | .control v _ => [v]
  | _ => []

/-- JS truthiness of the optional `buttonText` prop. -/
def actionTruthy : Option ButtonText → Bool
  | none => false
  | some v => v.truthy

/-- Modelled from the spec: the spec's reading of `actionLabel` truthiness —
"non-empty string, or any number including zero" — to be compared with the
JS truthiness the code actually uses. -/
def specActionTruthy : ButtonText → Bool
  | .str s => s ≠ ""
  | .num _ => true

/-! ### The canvas capture (`copyImageOnCanvas`) -/

/-- A loaded image element's intrinsic data: natural dimensions and pixel
content, row-major. -/
structure Image where
  naturalWidth : Nat
  naturalHeight : Nat
  pixels : List Nat
deriving DecidableEq, Repr

/-- The pixel of `img` at column `x`, row `y` (0 — transparent — outside the data). -/
def pixelAt (img : Image) (x y : Nat) : Nat :=
  img.pixels.getD (y * img.naturalWidth + x) 0

/-- A canvas element: dimensions plus row-major pixel data. -/
structure Canvas where
  width : Nat
  height : Nat
  data : List Nat
deriving DecidableEq, Repr

/-- `canvas.width = w`: per the HTML drawing-surface semantics, assigning a
canvas dimension resets the surface to transparent black. -/
def setWidth (c : Canvas) (w : Nat) : Canvas :=
  ⟨w, c.height, List.replicate (w * c.height) 0⟩

/-- `canvas.height = h`: likewise clears the surface. -/
def setHeight (c : Canvas) (h : Nat) : Canvas :=
  ⟨c.width, h, List.replicate (c.width * h) 0⟩

/-- Source-over compositing of one pixel, with 0 as full transparency. -/
def srcOver (src dst : Nat) : Nat :=
  if src = 0 then dst else src

/-- `ctx.drawImage(image, 0, 0)`: composite the image over the canvas at
offset (0,0), 1:1 scale, clipped to the canvas bounds. -/
def drawImage (c : Canvas) (img : Image) : Canvas :=
  { c with
    data := (List.range (c.width * c.height)).map fun i =>
      let x := i % c.width
      let y := i / c.width
      if x < img.naturalWidth && y < img.naturalHeight then
        srcOver (pixelAt img x y) (c.data.getD i 0)
      else c.data.getD i 0 }

/-- The `onLoad` handler `copyImageOnCanvas`, translated line by line.
`canvasRef` is `canvasRef.current`, which React sets to `null` once the
component is unmounted; on `null` the very first use,
`canvas.getContext('2d')`, throws a `TypeError` — the function has no
mounted-check guard.  Otherwise it assigns `canvas.width` and
`canvas.height` from the image's natural dimensions (each assignment
clearing the surface) and draws the image at (0,0). -/
def copyImageOnCanvas (canvasRef : Option Canvas) (image : Image) :
    Except String Canvas :=
  match canvasRef with
  | none => .error "TypeError: null canvas ref"
  | some canvas =>
    let canvas := setWidth canvas image.naturalWidth
    let canvas := setHeight canvas image.naturalHeight
    .ok (drawImage canvas image)

/-- How the rendered `img` element reacts to the outcome of its resource
load.  The component binds `copyImageOnCanvas` to the load event only; no
error handler is bound, so a failed load leaves the canvas untouched and
raises nothing. -/
inductive LoadOutcome where
  | success (img : Image)
  | failure
deriving DecidableEq, Repr

/-- Process the image element's load outcome against the current canvas ref. -/
def processImageOutcome (canvasRef : Option Canvas) :
    LoadOutcome → Except String (Option Canvas)
  | .success img => (copyImageOnCanvas canvasRef img).map some
  | .failure => .ok canvasRef

/-- True iff the capture step raises (models a thrown `TypeError`). -/
def raisesError : Except String Canvas → Bool
  | .error _ => true
  | .ok _ => false

/-! ### Click dispatch on the action control -/

/-- One element's click behaviour on the bubbling path: whether its handler
calls the caller's `onButtonClick`, whether it navigates (react-router
`Link` pushes its `to` target on an unstopped click), and whether it stops
propagation. -/
structure Handler where
  callsOnAction : Bool
  navigatesTo : Option LinkTarget
  stops : Bool
deriving DecidableEq, Repr

/-- Outcome of one click dispatch. -/
structure ClickOutcome where
  onActionCalls : Nat
  navigated : Bool
deriving DecidableEq, Repr

/-- DOM bubbling-phase dispatch along a chain of handlers, target first:
each handler runs, and propagation continues to the next (ancestor) handler
unless the current one stops it. -/
def dispatch : List Handler → ClickOutcome
  | [] => ⟨0, false⟩
  | h :: rest =>
    let tail := if h.stops then (⟨0, false⟩ : ClickOutcome) else dispatch rest
    ⟨(if h.callsOnAction then 1 else 0) + tail.onActionCalls,
     h.navigatesTo.isSome || tail.navigated⟩

/-- The bubbling path of a click on the action control, read off the JSX:
the `Button` carries `onClick={onButtonClick}` — the caller's handler,
passed through unchanged, with no `stopPropagation` added by the component
(`callerStops` records whether the caller's own handler stops propagation;
the default handler `() => {}` does not) — and above it sits the container,
which navigates to its target iff it is a `Link`. -/
def actionClickChain (r : Rendered) (callerStops : Bool) : List Handler :=
  [⟨true, none, callerStops⟩, ⟨false, r.target, false⟩]

/-- A click on the rendered action control. -/
def clickActionControl (r : Rendered) (callerStops : Bool) : ClickOutcome :=
  dispatch (actionClickChain r callerStops)


/-! ### Helper lemmas (shared) -/

/-- Compositing any pixel over full transparency yields that pixel. -/
theorem srcOver_zero (s : Nat) : srcOver s 0 = s := by
  unfold srcOver; split <;> omega

/-- An all-transparent surface reads 0 at every index, in range or not. -/
theorem getD_replicate_zero (n i : Nat) : (List.replicate n (0 : Nat)).getD i 0 = 0 := by
  rcases lt_or_ge i n with h | h
  · simp [List.getD_eq_getElem?_getD, List.getElem?_replicate, h]
  · have hl : (List.replicate n (0 : Nat)).length ≤ i := by simpa using h
    simp [List.getD_eq_getElem?_getD, List.getElem?_eq_none hl]

/-- `drawImage` leaves the canvas width unchanged. -/
theorem drawImage_width (c : Canvas) (img : Image) : (drawImage c img).width = c.width := rfl

/-- `drawImage` leaves the canvas height unchanged. -/
theorem drawImage_height (c : Canvas) (img : Image) : (drawImage c img).height = c.height := rfl

/-- The capture result does not depend on the canvas it starts from: both
dimension assignments reset the surface before anything is drawn. -/
theorem copyImageOnCanvas_indep (c₁ c₂ : Canvas) (img : Image) :
    copyImageOnCanvas (some c₁) img = copyImageOnCanvas (some c₂) img := rfl

/-! ### Claims -/

/-- Claim C1, as stated, is false on the code: for identifier "gem42" the
rendered link's target path is "/gem/gem42", not "/item/gem42" — the route
prefix in the source is `/gem/`, not `/item/`. -/
theorem C1_item_path_counterexample :
    ((render ⟨some "gem42", some "https://x/img.png", some (.str "Bid 55"), none⟩
        "/current").target.map LinkTarget.pathname) = some "/gem/gem42" ∧
    ((render ⟨some "gem42", some "https://x/img.png", some (.str "Bid 55"), none⟩
        "/current").target.map LinkTarget.pathname) ≠ some "/item/gem42" := by
  exact ⟨rfl, by decide⟩

/-- Claim C1 (amended): for every non-empty `identifier` string, the rendered
container is a navigation link whose target path has the form
`/gem/<identifier>`. -/
theorem C1_link_path (p : Props) (loc s : String)
    (hg : p.gemId = some s) (hs : s ≠ "") :
    (render p loc).asLink = true ∧
    ((render p loc).target.map LinkTarget.pathname) = some ("/gem/" ++ s) := by
  simp [render, jsTruthyStr, hg, hs]

/-- Witness for C1 at identifier "gem42". -/
theorem C1_link_path_witness :
    (render ⟨some "gem42", none, none, none⟩ "/cur").asLink = true ∧
    ((render ⟨some "gem42", none, none, none⟩ "/cur").target.map LinkTarget.pathname)
      = some ("/gem/" ++ "gem42") :=
  C1_link_path ⟨some "gem42", none, none, none⟩ "/cur" "gem42" rfl (by decide)

/-- Claim C2, as stated, is false on the code: `actionLabel = 0` is truthy in
the spec's sense ("any number including zero"), yet `{buttonText && <Button>}`
renders no action control for it — JS treats 0 as falsy, and React renders
the leftover 0 as a stray text node. -/
theorem C2_zero_label_counterexample :
    specActionTruthy (.num 0) = true ∧
    countActionControls (render ⟨none, none, some (.num 0), none⟩ "/") = 0 ∧
    (render ⟨none, none, some (.num 0), none⟩ "/").action = .strayText (.num 0) := by
  decide

/-- Claim C2 (amended): the action control is rendered exactly when
`actionLabel` is truthy in the JS sense — a non-empty string or a *nonzero*
number — and when rendered there is exactly one action control carrying that
label; when `actionLabel` is absent (or falsy) no action control is rendered. -/
theorem C2_action_control (p : Props) (loc : String) :
    countActionControls (render p loc) = (if actionTruthy p.buttonText then 1 else 0) ∧
    actionLabels (render p loc) =
      (match p.buttonText with
       | some v => if v.truthy then [v] else []
       | none => []) := by
  cases h : p.buttonText with
  | none => simp [render, countActionControls, actionLabels, actionTruthy, h]
  | some v =>
    cases v with
    | str s =>
      by_cases hs : s = "" <;>
        simp [render, countActionControls, actionLabels, actionTruthy,
          ButtonText.truthy, h, hs]
    | num n =>
      by_cases hn : n = 0 <;>
        simp [render, countActionControls, actionLabels, actionTruthy,
          ButtonText.truthy, h, hn]

/-- Claim C3, as stated, is false on the code: with the default caller
handler (a no-op arrow function, which does not stop propagation), a click on the
action control of a link card bubbles into the link and triggers its
navigation — the component never calls `stopPropagation`. -/
theorem C3_bubbles_counterexample :
    (render ⟨some "gem42", none, some (.str "Bid 55"), none⟩ "/cur").asLink = true ∧
    clickActionControl (render ⟨some "gem42", none, some (.str "Bid 55"), none⟩ "/cur") false
      = ⟨1, true⟩ := by
  decide

/-- Claim C3 (amended): a click on the action control invokes `onAction`
exactly once; the event bubbles into the link, so navigation is triggered
exactly when the container is a link and the caller's own handler does not
stop propagation (the component adds no `stopPropagation` of its own). -/
theorem C3_click_outcome (p : Props) (loc : String) (callerStops : Bool) :
    (clickActionControl (render p loc) callerStops).onActionCalls = 1 ∧
    (clickActionControl (render p loc) callerStops).navigated
      = (!callerStops && (render p loc).asLink) := by
  cases callerStops <;>
    cases h : jsTruthyStr p.gemId <;>
      simp [clickActionControl, actionClickChain, dispatch, render, h]

/-- Claim C4, as stated, is false on the code: a load callback firing after
unmount (null canvas ref) is not a guarded no-op — it throws on the very
first dereference, `canvas.getContext` of null. -/
theorem C4_no_guard_counterexample :
    raisesError (copyImageOnCanvas none ⟨1, 1, [7]⟩) = true ∧
    copyImageOnCanvas none ⟨1, 1, [7]⟩ = .error "TypeError: null canvas ref" := by
  exact ⟨rfl, rfl⟩

/-- Claim C4 (amended): the load callback has no mounted-check guard — if it
fires when the component is unmounted (canvas ref null), it never reaches a
pixel buffer but fails by dereferencing the null ref, for every image. -/
theorem C4_unmounted_callback_throws (img : Image) :
    copyImageOnCanvas none img = .error "TypeError: null canvas ref" := rfl

/-- Claim C5: after every successful image load, the capture result's width
and height equal the loaded image's natural width and height exactly; the
buffer is recreated wholesale on each load — the result is identical from
any prior canvas state — and within bounds its content is exactly the
image's pixels at 1:1. -/
theorem C5_capture_dims_and_content (c c₂ : Canvas) (img : Image) :
    ∃ c', copyImageOnCanvas (some c) img = .ok c' ∧
      c'.width = img.naturalWidth ∧
      c'.height = img.naturalHeight ∧
      copyImageOnCanvas (some c₂) img = .ok c' ∧
      ∀ x y, x < img.naturalWidth → y < img.naturalHeight →
        c'.data.getD (y * img.naturalWidth + x) 0 = pixelAt img x y := by
  refine ⟨drawImage ⟨img.naturalWidth, img.naturalHeight,
    List.replicate (img.naturalWidth * img.naturalHeight) 0⟩ img, rfl, rfl, rfl, rfl, ?_⟩
  intro x y hx hy
  have hw : 0 < img.naturalWidth := by omega
  have hk : y * img.naturalWidth + x < img.naturalWidth * img.naturalHeight := by
    have h1 : (y + 1) * img.naturalWidth ≤ img.naturalHeight * img.naturalWidth :=
      Nat.mul_le_mul_right _ (by omega)
    have h2 : (y + 1) * img.naturalWidth = y * img.naturalWidth + img.naturalWidth :=
      Nat.succ_mul y img.naturalWidth
    have h3 : img.naturalHeight * img.naturalWidth
        = img.naturalWidth * img.naturalHeight := Nat.mul_comm _ _
    omega
  have hmod : (y * img.naturalWidth + x) % img.naturalWidth = x := by
    rw [Nat.add_comm, Nat.add_mul_mod_self_right, Nat.mod_eq_of_lt hx]
  have hdiv : (y * img.naturalWidth + x) / img.naturalWidth = y := by
    rw [Nat.add_comm, Nat.add_mul_div_right _ _ hw, Nat.div_eq_of_lt hx, Nat.zero_add]
  simp [drawImage, List.getD_eq_getElem?_getD, List.getElem?_map, List.getElem?_range hk,
    List.getElem?_replicate, hk, hmod, hdiv, hx, hy, srcOver_zero]

/-- Witness for C5 on a concrete 2 by 2 image and two unrelated prior canvases. -/
theorem C5_capture_witness :
    ∃ c', copyImageOnCanvas (some ⟨5, 5, List.replicate 25 9⟩) ⟨2, 2, [1, 2, 3, 4]⟩
        = .ok c' ∧
      c'.width = 2 ∧ c'.height = 2 ∧
      copyImageOnCanvas (some ⟨0, 0, []⟩) ⟨2, 2, [1, 2, 3, 4]⟩ = .ok c' ∧
      c'.data.getD (1 * 2 + 1) 0 = pixelAt ⟨2, 2, [1, 2, 3, 4]⟩ 1 1 := by
  obtain ⟨c', h1, h2, h3, h4, h5⟩ :=
    C5_capture_dims_and_content ⟨5, 5, List.replicate 25 9⟩ ⟨0, 0, []⟩ ⟨2, 2, [1, 2, 3, 4]⟩
  exact ⟨c', h1, h2, h3, h4, h5 1 1 (by decide) (by decide)⟩

/-- Claim C6: when the identifier is a non-empty string, the card renders as
a link whose target embeds the identifier and carries the current page's
path as the previous-path value; when the identifier is undefined or the
empty string, the container is a plain block with no navigation target. -/
theorem C6_container_kind (p : Props) (loc : String) :
    (match p.gemId with
     | some s =>
        if s = "" then (render p loc).asLink = false ∧ (render p loc).target = none
        else (render p loc).asLink = true ∧
          (render p loc).target = some ⟨"/gem/" ++ s, loc⟩
     | none => (render p loc).asLink = false ∧ (render p loc).target = none) := by
  cases h : p.gemId with
  | none => simp [render, jsTruthyStr, h]
  | some s => by_cases hs : s = "" <;> simp [render, jsTruthyStr, h, hs]

/-- Claim C7: on a failed image load the pixel-capture step never runs —
only a load handler is bound to the image, no error handler — the canvas is
left exactly as it was, and no error value is produced. -/
theorem C7_failure_is_silent (canvasRef : Option Canvas) (p : Props) (loc : String) :
    processImageOutcome canvasRef .failure = .ok canvasRef ∧
    (render p loc).img.hasOnLoad = true ∧
    (render p loc).img.hasOnError = false := by
  refine ⟨rfl, ?_, ?_⟩ <;> simp [render]

/-- Claim C8: when `imageSource` is undefined, the rendered image element's
source is the bundled placeholder asset. -/
theorem C8_placeholder_when_absent (g : Option String) (bt : Option ButtonText)
    (d : Option Bool) (loc : String) :
    (render ⟨g, none, bt, d⟩ loc).img.src = placeholderDataUrl := by
  simp [render, jsOrStr]

/-- Claim C9: the capture step is idempotent — capturing the same loaded
image again, starting from the buffer the first capture produced, yields
exactly the same buffer. -/
theorem C9_capture_idempotent (c : Canvas) (img : Image) :
    (copyImageOnCanvas (some c) img).bind
        (fun c' => copyImageOnCanvas (some c') img)
      = copyImageOnCanvas (some c) img := rfl

/-- Claim C10: when `imageSource` is the empty string — present but falsy —
the rendered image's source is also the placeholder asset: the fallback is
chosen by truthiness, not presence. -/
theorem C10_placeholder_when_empty (g : Option String) (bt : Option ButtonText)
    (d : Option Bool) (loc : String) :
    (render ⟨g, some "", bt, d⟩ loc).img.src = placeholderDataUrl := by
  simp [render, jsOrStr]

end ArtItem
